import Mathlib

/-!
Verification development for the wager-session engine of a casino chat bot
(`src/main.py`).  Money amounts are modelled as exact decimals in `ℚ`;
Python's `round(x, 2)` (round-half-to-even at two decimal places) is
modelled by `round2`.  Session records (`Challenge`) mirror the dictionary
entries kept in `pending_pvp`, and each handler branch that the claims
refer to is embedded as a pure function on such records.
-/

/-- Round-half-to-even to an integer, the rounding mode of Python `round`. -/
def roundHalfEven (x : ℚ) : ℤ :=
  if x - Int.floor x < 1/2 then Int.floor x
  else if 1/2 < x - Int.floor x then Int.floor x + 1
  else if Int.floor x % 2 = 0 then Int.floor x else Int.floor x + 1

/-- Python `round(x, 2)` on exact decimals. -/
def round2 (x : ℚ) : ℚ := (roundHalfEven (100 * x) : ℚ) / 100

/-- The win-probability lookup used by `calculate_cashout` (src/main.py:3586-3595):
a table for remaining needs in `{1,2,3}`, and the default `prob = 0.5` that the
code falls back to for any other pair of needs. -/
def cashout_prob (needed_p needed_b : ℕ) : ℚ :=
  if needed_p = 1 ∧ needed_b = 1 then 1/2
  else if needed_p = 1 ∧ needed_b = 2 then 3/4
  else if needed_p = 1 ∧ needed_b = 3 then 7/8
  else if needed_p = 2 ∧ needed_b = 1 then 1/4
  else if needed_p = 2 ∧ needed_b = 2 then 1/2
  else if needed_p = 2 ∧ needed_b = 3 then 11/16
  else if needed_p = 3 ∧ needed_b = 1 then 1/8
  else if needed_p = 3 ∧ needed_b = 2 then 5/16
  else if needed_p = 3 ∧ needed_b = 3 then 1/2
  else 1/2

/-- The valuator `calculate_cashout` (src/main.py:3568-3600).  `0.95 = 19/20`;
the code returns `max(0, round(prob * (wager * 2) * 0.95, 2))`. -/
def calculate_cashout (p_pts b_pts target_pts : ℕ) (wager : ℚ) : ℚ :=
  if p_pts ≥ target_pts then wager * 2
  else if b_pts ≥ target_pts then 0
  else
    max 0 (round2 (cashout_prob (target_pts - p_pts) (target_pts - b_pts) * (wager * 2) * (19/20)))

/-- One row of the negative-binomial recurrence, structural in the second need. -/
def winProbRow (prev : ℕ → ℚ) : ℕ → ℚ
  | 0 => 0
  | b + 1 => (prev (b + 1) + winProbRow prev b) / 2

/-- Modelled from the spec: the 50/50 negative-binomial recurrence
`P(a,b) = 0.5*P(a-1,b) + 0.5*P(a,b-1)` with base cases `P(0,·) = 1`
and `P(·,0) = 0` (spec §4.3).  This is the spec-side comparison
definition for the cashout probability; the source code itself only
has the finite table in `cashout_prob`. -/
def winProb : ℕ → ℕ → ℚ
  | 0, _ => 1
  | a + 1, b => winProbRow (winProb a) b

/-- A `pending_pvp` session record.  Fields mirror the dictionary keys that
the handlers and the sweeper read; field defaults mirror the defaults the
code passes to `dict.get`.  Fields that a given session kind never sets
simply keep their defaults, exactly as a missing key reads back via `.get`. -/
structure Challenge where
  wager : ℚ := 0
  created_at : Option ℤ := none
  emoji_wait : Option ℤ := none
  emoji_wait_started : Option ℤ := none
  cur_rolls : ℕ := 0
  rolls : ℕ := 1
  pts : ℕ := 1
  p_pts : ℕ := 0
  b_pts : ℕ := 0
  mode : String := "normal"
  player : Option ℕ := none
  challenger : ℕ := 0
  opponent : Option ℕ := none
  wager_deducted : Bool := false
  waiting_for_cashout : Bool := false
  waiting_p1 : Bool := false
  waiting_p2 : Bool := false
  p1_deducted : Bool := false
  p2_deducted : Bool := false
  p1_pts : ℕ := 0
  p2_pts : ℕ := 0
  waiting_for_challenger_emoji : Bool := false
  waiting_for_emoji : Bool := false
  deriving DecidableEq

/-- Python `str.startswith`, on the character lists of the two strings. -/
def strStartsWith (s p : String) : Bool := p.data.isPrefixOf s.data

/-- The store of in-flight sessions (`self.pending_pvp`), as an association
list keyed by session id, in dictionary iteration (= insertion) order. -/
abbrev Store := List (String × Challenge)

/-- Python `del store[id]` removes the key; on this association list all
entries with that key are dropped (keys are unique in a dict). -/
def storeErase (store : Store) (id : String) : Store :=
  store.filter (fun kv => kv.1 ≠ id)

def storeHasKey (store : Store) (id : String) : Bool :=
  store.any (fun kv => kv.1 = id)

/-- Ledger effects accumulated by one sweeper cycle: ids scheduled for
removal (in append order, duplicates kept), balance credits issued, and the
total house-balance adjustment. -/
structure SweepState where
  expired : List String := []
  credits : List (ℕ × ℚ) := []
  houseDelta : ℚ := 0
  deriving DecidableEq

/-- Per-session body of `check_expired_challenges` (src/main.py:287-472):
timeout policy for v2 bot/PvP series, unaccepted open challenges, and the
two legacy emoji-wait cases.  Message sending is omitted; balance credits
and house adjustments are recorded as effects.  In the auto-cashout case
the id is appended to the expired list a second time, exactly as
src/main.py:308 and src/main.py:325 both run. -/
def sweepChallenge (now limit_exp : ℤ) (id : String) (c : Challenge) (s : SweepState) :
    SweepState :=
  if strStartsWith id "v2_bot_" || strStartsWith id "v2_pvp_" then
    match (match c.emoji_wait with | some t => some t | none => c.created_at) with
    | none => s
    | some t =>
      let time_diff := now - t
      let limit : ℤ :=
        if c.cur_rolls > 0 || c.p_pts > 0 || c.b_pts > 0 then 900 else limit_exp
      if time_diff > limit then
        let s1 := { s with expired := s.expired ++ [id] }
        if strStartsWith id "v2_bot_" then
          let pid := c.player.getD 0
          if c.waiting_for_cashout then
            let cashout_val := calculate_cashout c.p_pts c.b_pts c.pts c.wager
            { s1 with
              credits := s1.credits ++ [(pid, cashout_val)],
              houseDelta := s1.houseDelta - (cashout_val - c.wager),
              expired := s1.expired ++ [id] }
          else if c.wager_deducted then
            if c.cur_rolls ≥ c.rolls then
              { s1 with credits := s1.credits ++ [(pid, c.wager)] }
            else s1
          else s1
        else
          if c.waiting_p1 then
            if c.p2_deducted then
              { s1 with credits := s1.credits ++ [(c.opponent.getD 0, c.wager)] }
            else s1
          else if c.waiting_p2 then
            if c.p1_deducted then
              { s1 with credits := s1.credits ++ [(c.challenger, c.wager)] }
            else s1
          else s1
      else s
  else
    if c.created_at.isSome && c.opponent.isNone then
      match c.created_at with
      | none => s
      | some created =>
        if now - created > limit_exp then
          { s with
            expired := s.expired ++ [id],
            credits := s.credits ++ [(c.challenger, c.wager)] }
        else s
    else if c.waiting_for_challenger_emoji && c.emoji_wait_started.isSome then
      match c.emoji_wait_started with
      | none => s
      | some started =>
        if now - started > limit_exp then
          { s with
            expired := s.expired ++ [id],
            houseDelta := s.houseDelta + c.wager,
            credits := s.credits ++ [(c.opponent.getD 0, c.wager)] }
        else s
    else if c.waiting_for_emoji && c.emoji_wait_started.isSome then
      match c.emoji_wait_started with
      | none => s
      | some started =>
        if now - started > limit_exp then
          if c.opponent.isSome then
            { s with
              expired := s.expired ++ [id],
              houseDelta := s.houseDelta + c.wager,
              credits := s.credits ++ [(c.challenger, c.wager)] }
          else if c.player.isSome then
            { s with
              expired := s.expired ++ [id],
              houseDelta := s.houseDelta + c.wager }
          else s
        else s
    else s

/-- The removal loop `for challenge_id in expired_challenges: del
self.pending_pvp[challenge_id]` (src/main.py:475-476).  `del` on a missing
key raises `KeyError`, which the surrounding `except` catches: the loop
stops there and the remaining ids are never removed.  Returns the store as
left behind and whether the loop ran to completion. -/
def removeExpired : List String → Store → Store × Bool
  | [], store => (store, true)
  | id :: rest, store =>
    if storeHasKey store id then removeExpired rest (storeErase store id)
    else (store, false)

/-- Result of one sweeper cycle. -/
structure SweepResult where
  expired : List String
  credits : List (ℕ × ℚ)
  houseDelta : ℚ
  store : Store
  completed : Bool
  deriving DecidableEq

/-- One cycle of `check_expired_challenges` (src/main.py:279-483): scan every
session in order, collect expirations and ledger effects, then run the
removal loop. -/
def check_expired_challenges (now limit_exp : ℤ) (store : Store) : SweepResult :=
  let s := store.foldl (fun acc kv => sweepChallenge now limit_exp kv.1 kv.2 acc) {}
  let r := removeExpired s.expired store
  ⟨s.expired, s.credits, s.houseDelta, r.1, r.2⟩

/-- Apply a credit list to one participant's balance. -/
def applyCredits (bal : ℚ) (uid : ℕ) (credits : List (ℕ × ℚ)) : ℚ :=
  credits.foldl (fun b cr => if cr.1 = uid then b + cr.2 else b) bal

/-- Session id minted by `create_open_dice_challenge` (src/main.py:3401):
`f"dice_open_{user_id}_{int(datetime.now().timestamp())}"`. -/
def create_open_dice_id (user_id ts : ℕ) : String :=
  "dice_open_" ++ toString user_id ++ "_" ++ toString ts

/-- Session id minted by `start_generic_v2_bot` (src/main.py:4350):
`f"v2_bot_{game}_{user_id}_{int(datetime.now().timestamp())}"`. -/
def v2_bot_id (game : String) (user_id ts : ℕ) : String :=
  "v2_bot_" ++ game ++ "_" ++ toString user_id ++ "_" ++ toString ts

/-- Session id minted by the v2 PvP create branch (src/main.py:4543):
`f"v2_pvp_{game}_{user_id}_{int(datetime.now().timestamp())}"`. -/
def v2_pvp_id (game : String) (user_id ts : ℕ) : String :=
  "v2_pvp_" ++ game ++ "_" ++ toString user_id ++ "_" ++ toString ts

/-- Session id minted by `create_emoji_pvp_challenge` (src/main.py:3491):
`f"{game_type}_open_{user_id}_{int(datetime.now().timestamp())}"`.  Its call
sites pass `game_type` in `{darts, basketball, soccer, bowling}`
(src/main.py:5774-5801). -/
def emoji_open_id (game_type : String) (user_id ts : ℕ) : String :=
  game_type ++ "_open_" ++ toString user_id ++ "_" ++ toString ts

/-- Session id minted by the setup-confirm branch of `_show_emoji_game_setup`
(src/main.py:1017): `f"v2_bot_{user_id}_{int(datetime.now().timestamp())}"`,
with no game component.  No caller ever passes `step == "confirm"`, so this
fifth minting site is dead code, but it is embedded for completeness. -/
def setup_confirm_bot_id (user_id ts : ℕ) : String :=
  "v2_bot_" ++ toString user_id ++ "_" ++ toString ts

/-- Modelled from the spec (§6): the claimed session-id contract
`"<kind>_<creatorId>_<creationEpochSeconds>"`. -/
def specSessionId (kind : String) (creator ts : ℕ) : String :=
  kind ++ "_" ++ toString creator ++ "_" ++ toString ts

/-- Modelled from the spec (§6): an id obeys the claimed design contract when
it is `specSessionId kind creator ts` for some `kind ∈ {open, pvp, bot}`. -/
def claimedIdFormat (id : String) : Prop :=
  ∃ kind creator ts, (kind = "open" ∨ kind = "pvp" ∨ kind = "bot") ∧
    id = specSessionId kind creator ts

/-- The handler `create_open_dice_challenge` (src/main.py:3385-3413): balance
check, immediate wager deduction, and insertion of the open-challenge record.
Returns `none` on insufficient balance, else the creator's new balance, the
minted id, and the updated store. -/
def create_open_dice_challenge (user_id : ℕ) (balance wager : ℚ) (ts : ℕ)
    (store : Store) : Option (ℚ × String × Store) :=
  if wager > balance then none
  else
    let cid := create_open_dice_id user_id ts
    some (balance - wager, cid,
      store ++ [(cid, { wager := wager, challenger := user_id, opponent := none,
                        created_at := some (ts : ℤ),
                        waiting_for_challenger_emoji := false })])

/-- The `decline_` branch of `button_callback` (src/main.py:5995-6002): only
the challenger may cancel; on cancel the session is deleted.  The branch
makes no Ledger call, so the returned credit list is empty by construction.
Returns the new store, the ledger credits issued, and whether the cancel
was accepted. -/
def decline_branch (store : Store) (challenge_id : String) (user_id : ℕ) :
    Store × List (ℕ × ℚ) × Bool :=
  match List.lookup challenge_id store with
  | some c =>
    if c.challenger = user_id then (storeErase store challenge_id, [], true)
    else (store, [], false)
  | none => (store, [], false)

/-- Result of the `v2_cashout_` branch. -/
structure CashoutResult where
  store : Store
  credits : List (ℕ × ℚ)
  houseDelta : ℚ
  success : Bool
  deriving DecidableEq

/-- The `v2_cashout_` branch of `button_callback` (src/main.py:5686-5716):
reject when the session is missing or its `player` is not the requester;
otherwise credit `calculate_cashout` on the current score, adjust the house
by `-(cashout - wager)`, and delete the session.  The branch performs no
other state check. -/
def v2_cashout_branch (store : Store) (cid : String) (user_id : ℕ) : CashoutResult :=
  match List.lookup cid store with
  | none => ⟨store, [], 0, false⟩
  | some c =>
    if c.player ≠ some user_id then ⟨store, [], 0, false⟩
    else
      let cashout_val := calculate_cashout c.p_pts c.b_pts c.pts c.wager
      ⟨storeErase store cid, [(user_id, cashout_val)], -(cashout_val - c.wager), true⟩

inductive RoundWin where
  | p | b | draw
  deriving DecidableEq

/-- Round resolution as repeated in the v2 loops (e.g. src/main.py:5211-5217):
`normal` mode, higher total wins; otherwise lower total wins; ties draw. -/
def resolve_round (mode : String) (p_tot b_tot : ℕ) : RoundWin :=
  if mode = "normal" then
    if p_tot > b_tot then .p else if b_tot > p_tot then .b else .draw
  else
    if p_tot < b_tot then .p else if b_tot < p_tot then .b else .draw

/-- Ledger effects of one settlement step. -/
structure SettleEffects where
  credits : List (ℕ × ℚ) := []
  houseDelta : ℚ := 0
  removed : Bool := false
  deriving DecidableEq

/-- Round/series resolution of the `v2_send_emoji_` branch
(src/main.py:5210-5280): apply the round result to the score; if either side
reached `pts` the series settles — a player win credits `wager * 1.95` and
adjusts the house by `-(payout - wager)` (src/main.py:5227-5231), a player
loss adjusts the house by `+wager` (src/main.py:5245) — and the session is
deleted; otherwise the session continues to the next round. -/
def v2_send_emoji_resolve (c : Challenge) (p_tot b_tot : ℕ) :
    Challenge × SettleEffects :=
  let c1 :=
    match resolve_round c.mode p_tot b_tot with
    | .p => { c with p_pts := c.p_pts + 1 }
    | .b => { c with b_pts := c.b_pts + 1 }
    | .draw => c
  let target_pts := c1.pts
  if c1.p_pts ≥ target_pts || c1.b_pts ≥ target_pts then
    let w := c1.wager
    if c1.p_pts ≥ target_pts then
      let payout := w * (39/20)
      (c1, { credits := [(c1.player.getD 0, payout)],
             houseDelta := -(payout - w), removed := true })
    else
      (c1, { credits := [], houseDelta := w, removed := true })
  else
    (c1, { removed := false })

/-- Series settlement at the end of `generic_v2_pvp_loop`
(src/main.py:4615-4632): the winner is `p1` when `p1_pts` reached `pts`,
else `p2`; the winner is credited `+wager` only (the `payout = wager * 1.95`
on src/main.py:4627 is computed but never used), no house adjustment is
made, and the session is deleted. -/
def generic_v2_pvp_settle (c : Challenge) (p1_id p2_id : ℕ) : SettleEffects :=
  let w := c.wager
  let winner_id := if c.p1_pts ≥ c.pts then p1_id else p2_id
  { credits := [(winner_id, w)], houseDelta := 0, removed := true }

/-- Scenario A bot series right after creation: wager 10, target 1 point,
one roll per round, normal mode, player id 7 (escrowed at creation). -/
def c1_scenarioA_bot : Challenge :=
  { wager := 10, pts := 1, rolls := 1, mode := "normal", player := some 7,
    wager_deducted := true }

/-- A finished v2 PvP series: challenger 3 reached the 1-point target
against opponent 4, both sides escrowed, wager 10. -/
def c1_finished_pvp : Challenge :=
  { wager := 10, pts := 1, p1_pts := 1, p2_pts := 0, challenger := 3,
    opponent := some 4, p1_deducted := true, p2_deducted := true }

/-- An expired bot series sitting at the cashout prompt (score 2-1 of 3,
wager 10, player 7): the sweeper's auto-cashout case. -/
def c3_bot_session : Challenge :=
  { wager := 10, pts := 3, p_pts := 2, b_pts := 1, player := some 7,
    waiting_for_cashout := true, wager_deducted := true, emoji_wait := some 0,
    rolls := 1 }

/-- An expired unaccepted open challenge (wager 5, challenger 9). -/
def c3_open_session : Challenge :=
  { wager := 5, challenger := 9, created_at := some 0 }

/-- A store holding both expired sessions of the C3 scenario. -/
def c3_store : Store :=
  [("v2_bot_dice_7_50", c3_bot_session), ("dice_open_9_60", c3_open_session)]

/-- Scenario D: a v2 PvP series with both sides escrowed in which the
challenger (3) stalls on their turn; opponent 4, wager 10, no round played. -/
def c4_stalled_pvp : Challenge :=
  { wager := 10, challenger := 3, opponent := some 4, waiting_p1 := true,
    p1_deducted := true, p2_deducted := true, emoji_wait := some 0 }

/-- A legacy accepted challenge waiting for the challenger's emoji:
challenger 5 stalls, acceptor 6 has escrowed, wager 7. -/
def c4_legacy_session : Challenge :=
  { wager := 7, challenger := 5, opponent := some 6,
    waiting_for_challenger_emoji := true, emoji_wait_started := some 0,
    created_at := some 0 }

/-- The open dice challenge created by user 9 with wager 5 at epoch 0. -/
def c5_open_session : Challenge :=
  { wager := 5, challenger := 9, opponent := none, created_at := some 0,
    waiting_for_challenger_emoji := false }

/-- A bot series in the middle of a round: the player has sent 1 of 2 rolls
of the current round (score 1-0 of 3, wager 10, player 7). -/
def c6_midround_bot : Challenge :=
  { wager := 10, pts := 3, p_pts := 1, b_pts := 0, cur_rolls := 1, rolls := 2,
    player := some 7, wager_deducted := true }

/-- A bot series at the cashout prompt used to witness the sweeper's
auto-cashout: score 1-2 of 3, wager 20, player 11, prompt shown at time 100. -/
def c10_prompt_bot : Challenge :=
  { wager := 20, pts := 3, p_pts := 1, b_pts := 2, player := some 11,
    waiting_for_cashout := true, wager_deducted := true, emoji_wait := some 100 }

theorem floor_le_roundHalfEven (x : ℚ) : Int.floor x ≤ roundHalfEven x := by
  unfold roundHalfEven
  split_ifs <;> omega

theorem roundHalfEven_le_floor_add_one (x : ℚ) : roundHalfEven x ≤ Int.floor x + 1 := by
  unfold roundHalfEven
  split_ifs <;> omega

theorem roundHalfEven_le_add_half (x : ℚ) : (roundHalfEven x : ℚ) ≤ x + 1/2 := by
  have hf : ((Int.floor x : ℤ) : ℚ) ≤ x := Int.floor_le x
  unfold roundHalfEven
  split_ifs with h1 h2 h3 <;> push_cast <;> linarith

theorem sub_half_le_roundHalfEven (x : ℚ) : x - 1/2 ≤ (roundHalfEven x : ℚ) := by
  have hf : ((Int.floor x : ℤ) : ℚ) ≤ x := Int.floor_le x
  have hl : x < (Int.floor x : ℚ) + 1 := Int.lt_floor_add_one x
  unfold roundHalfEven
  split_ifs with h1 h2 h3 <;> push_cast <;> linarith

theorem roundHalfEven_mono {x y : ℚ} (h : x ≤ y) : roundHalfEven x ≤ roundHalfEven y := by
  have hfl : Int.floor x ≤ Int.floor y := Int.floor_mono h
  rcases lt_or_eq_of_le hfl with hlt | heq
  · have h1 := roundHalfEven_le_floor_add_one x
    have h2 := floor_le_roundHalfEven y
    omega
  · have hfx : ((Int.floor x : ℤ) : ℚ) ≤ x := Int.floor_le x
    have hr : x - (Int.floor x : ℚ) ≤ y - (Int.floor y : ℚ) := by
      rw [← heq]; linarith
    unfold roundHalfEven
    rw [← heq]
    split_ifs <;> first | omega | linarith

theorem roundHalfEven_nonneg {x : ℚ} (h : 0 ≤ x) : 0 ≤ roundHalfEven x := by
  have h0 : (0 : ℤ) ≤ Int.floor x := by
    simpa using Int.floor_mono h
  have := floor_le_roundHalfEven x
  omega

theorem round2_mono {x y : ℚ} (h : x ≤ y) : round2 x ≤ round2 y := by
  unfold round2
  have h1 : roundHalfEven (100 * x) ≤ roundHalfEven (100 * y) :=
    roundHalfEven_mono (by linarith)
  have hc : ((roundHalfEven (100 * x) : ℤ) : ℚ) ≤ (roundHalfEven (100 * y) : ℚ) := by
    exact_mod_cast h1
  linarith

theorem round2_nonneg {x : ℚ} (h : 0 ≤ x) : 0 ≤ round2 x := by
  unfold round2
  have h1 : (0 : ℤ) ≤ roundHalfEven (100 * x) := roundHalfEven_nonneg (by linarith)
  have hc : ((0 : ℤ) : ℚ) ≤ (roundHalfEven (100 * x) : ℚ) := by exact_mod_cast h1
  push_cast at hc
  linarith

theorem cashout_prob_nonneg (a b : ℕ) : 0 ≤ cashout_prob a b := by
  unfold cashout_prob
  split_ifs <;> norm_num

theorem cashout_prob_le (a b : ℕ) : cashout_prob a b ≤ 7/8 := by
  unfold cashout_prob
  split_ifs <;> norm_num

theorem cashout_prob_eq_winProb (a b : ℕ)
    (ha : 1 ≤ a) (ha' : a ≤ 3) (hb : 1 ≤ b) (hb' : b ≤ 3) :
    cashout_prob a b = winProb a b := by
  interval_cases a <;> interval_cases b <;> norm_num [cashout_prob, winProb, winProbRow]

set_option maxHeartbeats 1000000 in
theorem cashout_prob_default (a b : ℕ) (h : 3 < a ∨ 3 < b) :
    cashout_prob a b = 1/2 := by
  rcases h with h | h <;>
    · unfold cashout_prob
      split_ifs <;> first | rfl | omega

theorem cashout_prob_mono_in_table (a1 b1 a2 b2 : ℕ)
    (ha1 : 1 ≤ a1) (ha1' : a1 ≤ 3) (hb1 : 1 ≤ b1) (hb1' : b1 ≤ 3)
    (ha2 : 1 ≤ a2) (ha2' : a2 ≤ 3) (hb2 : 1 ≤ b2) (hb2' : b2 ≤ 3)
    (hd : (b1 : ℤ) - a1 < (b2 : ℤ) - a2) :
    cashout_prob a1 b1 ≤ cashout_prob a2 b2 := by
  interval_cases a1 <;> interval_cases b1 <;> interval_cases a2 <;> interval_cases b2 <;>
    first
      | (exfalso; omega)
      | norm_num [cashout_prob]

theorem roundHalfEven_cents_bound (k : ℕ) :
    roundHalfEven ((133 * k : ℚ) / 80) ≤ 2 * k := by
  match k with
  | 0 => norm_num [roundHalfEven]
  | 1 => norm_num [roundHalfEven]
  | (n + 2) =>
    have h := roundHalfEven_le_add_half ((133 * ((n : ℚ) + 2)) / 80)
    have h2 : (133 * ((n : ℚ) + 2)) / 80 + 1/2 ≤ 2 * ((n : ℚ) + 2) := by
      have : (0:ℚ) ≤ (n : ℚ) := by positivity
      linarith
    have h3 : (roundHalfEven ((133 * ((n:ℚ) + 2)) / 80) : ℚ) ≤ 2 * ((n:ℚ) + 2) := by linarith
    have h4 : ((133 * ((n + 2 : ℕ)) : ℚ)) / 80 = (133 * ((n:ℚ) + 2)) / 80 := by
      push_cast; ring
    rw [h4]
    exact_mod_cast h3

theorem str_data_append (s t : String) : (s ++ t).data = s.data ++ t.data := by
  cases s; cases t; rfl

theorem str_append_assoc (a b c : String) : a ++ b ++ c = a ++ (b ++ c) := by
  cases a; cases b; cases c
  exact congrArg String.mk (List.append_assoc _ _ _)

theorem sweepChallenge_auto_cashout (now lim t0 : ℤ) (id : String) (c : Challenge)
    (s : SweepState) (pid : ℕ)
    (hid : strStartsWith id "v2_bot_" = true)
    (hwait : c.emoji_wait = some t0)
    (hcash : c.waiting_for_cashout = true)
    (hpid : c.player = some pid)
    (h900 : now - t0 > 900) (hlim : now - t0 > lim) :
    sweepChallenge now lim id c s =
      { expired := s.expired ++ [id] ++ [id],
        credits := s.credits ++ [(pid, calculate_cashout c.p_pts c.b_pts c.pts c.wager)],
        houseDelta := s.houseDelta - (calculate_cashout c.p_pts c.b_pts c.pts c.wager - c.wager) } := by
  unfold sweepChallenge
  rw [hid, hwait]
  have hgt : now - t0 > (if (decide (c.cur_rolls > 0) || decide (c.p_pts > 0) || decide (c.b_pts > 0)) = true then (900:ℤ) else lim) := by
    split_ifs <;> omega
  simp [hgt, hcash, hpid]
  intro h
  exfalso
  split_ifs at h <;> omega

theorem sweepChallenge_pvp_stall (now lim t0 : ℤ) (id : String) (c : Challenge)
    (s : SweepState) (oid : ℕ)
    (hbot : strStartsWith id "v2_bot_" = false)
    (hpvp : strStartsWith id "v2_pvp_" = true)
    (hwait : c.emoji_wait = some t0)
    (hfresh : c.cur_rolls = 0 ∧ c.p_pts = 0 ∧ c.b_pts = 0)
    (hlim : now - t0 > lim)
    (hw1 : c.waiting_p1 = true)
    (hded : c.p2_deducted = true)
    (hopp : c.opponent = some oid) :
    sweepChallenge now lim id c s =
      { expired := s.expired ++ [id],
        credits := s.credits ++ [(oid, c.wager)],
        houseDelta := s.houseDelta } := by
  unfold sweepChallenge
  rw [hbot, hpvp, hwait]
  simp [hfresh.1, hfresh.2.1, hfresh.2.2, hlim, hw1, hded, hopp]

theorem sweepChallenge_legacy_challenger_stall (now lim t0 : ℤ) (id : String) (c : Challenge)
    (s : SweepState) (oid : ℕ)
    (hbot : strStartsWith id "v2_bot_" = false)
    (hpvp : strStartsWith id "v2_pvp_" = false)
    (hwce : c.waiting_for_challenger_emoji = true)
    (hstart : c.emoji_wait_started = some t0)
    (hopp : c.opponent = some oid)
    (hlim : now - t0 > lim) :
    sweepChallenge now lim id c s =
      { expired := s.expired ++ [id],
        credits := s.credits ++ [(oid, c.wager)],
        houseDelta := s.houseDelta + c.wager } := by
  unfold sweepChallenge
  rw [hbot, hpvp, hstart]
  simp [hwce, hopp, hlim]

theorem removeExpired_single (id : String) (c : Challenge) :
    removeExpired [id] [(id, c)] = ([], true) := by
  simp [removeExpired, storeHasKey, storeErase]

theorem removeExpired_dup_single (id : String) (c : Challenge) :
    removeExpired [id, id] [(id, c)] = ([], false) := by
  simp [removeExpired, storeHasKey, storeErase]

/-- C1: Counterexample.  In Scenario A (bot series, wager 10, targetPoints 1,
self rolls 6 vs bot 3) the winner is indeed credited `19.50 = 39/2`, but the
house balance change at settlement is `-(payout - wager) = -9.50`, not the
`+0.50` edge amount the claim states; and a settled PvP series credits its
winner only `wager` (10), not `wager * 1.95`. -/
theorem C1_counterexample :
    (v2_send_emoji_resolve c1_scenarioA_bot 6 3).2.credits = [(7, 39/2)] ∧
    (v2_send_emoji_resolve c1_scenarioA_bot 6 3).2.houseDelta = -(19/2) ∧
    (v2_send_emoji_resolve c1_scenarioA_bot 6 3).2.houseDelta ≠ 1/2 ∧
    (generic_v2_pvp_settle c1_finished_pvp 3 4).credits = [(3, 10)] ∧
    (generic_v2_pvp_settle c1_finished_pvp 3 4).credits ≠ [(3, 39/2)] := by
  norm_num +decide [v2_send_emoji_resolve, resolve_round, c1_scenarioA_bot,
    generic_v2_pvp_settle, c1_finished_pvp]

/-- C1 (amended): When a v2 bot series settles, a player win credits the
player exactly `wager * 1.95` and adjusts the house balance by
`-(wager * 0.95)` (not by the `+0.05 * wager` edge), a player loss credits
nothing and adjusts the house by `+wager`, and the session is removed;
when a v2 PvP series settles, the winner is credited only `wager` (their
own stake back), the house balance is not adjusted at all, and the session
is removed. -/
theorem C1_settlement_amended :
    (∀ (c : Challenge) (p_tot b_tot : ℕ),
      resolve_round c.mode p_tot b_tot = RoundWin.p → c.p_pts + 1 ≥ c.pts →
      (v2_send_emoji_resolve c p_tot b_tot).2 =
        { credits := [(c.player.getD 0, c.wager * (39/20))],
          houseDelta := -(c.wager * (39/20) - c.wager), removed := true }) ∧
    (∀ (c : Challenge) (p_tot b_tot : ℕ),
      resolve_round c.mode p_tot b_tot = RoundWin.b → c.b_pts + 1 ≥ c.pts →
      c.p_pts < c.pts →
      (v2_send_emoji_resolve c p_tot b_tot).2 =
        { credits := [], houseDelta := c.wager, removed := true }) ∧
    (∀ (c : Challenge) (p1_id p2_id : ℕ), c.p1_pts ≥ c.pts →
      generic_v2_pvp_settle c p1_id p2_id =
        { credits := [(p1_id, c.wager)], houseDelta := 0, removed := true }) := by
  refine ⟨?_, ?_, ?_⟩
  · intro c p_tot b_tot hres hwin
    unfold v2_send_emoji_resolve
    rw [hres]
    simp [hwin]
  · intro c p_tot b_tot hres hloss hnp
    unfold v2_send_emoji_resolve
    rw [hres]
    simp [hloss, Nat.not_le.mpr hnp]
  · intro c p1_id p2_id hw
    unfold generic_v2_pvp_settle
    simp [hw]

/-- C1: Witness for the amended settlement theorem, at Scenario A and at a
finished PvP series. -/
theorem C1_witness :
    (v2_send_emoji_resolve c1_scenarioA_bot 6 3).2 =
      { credits := [(c1_scenarioA_bot.player.getD 0, c1_scenarioA_bot.wager * (39/20))],
        houseDelta := -(c1_scenarioA_bot.wager * (39/20) - c1_scenarioA_bot.wager),
        removed := true } ∧
    generic_v2_pvp_settle c1_finished_pvp 3 4 =
      { credits := [(3, c1_finished_pvp.wager)], houseDelta := 0, removed := true } :=
  ⟨C1_settlement_amended.1 c1_scenarioA_bot 6 3 (by decide) (by decide),
   C1_settlement_amended.2.2 c1_finished_pvp 3 4 (by decide)⟩

/-- C2: Counterexample.  At `targetPoints = 4`, score 3-0 (needs 1 and 4,
outside the lookup table) the code returns the default-probability value
`9.50`, while the claimed negative-binomial recurrence gives
`round(0.9375 * 2 * 10 * 0.95, 2) = 17.81`. -/
theorem C2_counterexample :
    calculate_cashout 3 0 4 10 = 19/2 ∧
    round2 (winProb (4 - 3) (4 - 0) * 2 * 10 * (19/20)) = 1781/100 ∧
    (19/2 : ℚ) ≠ 1781/100 := by
  norm_num [calculate_cashout, cashout_prob, round2, roundHalfEven, winProb, winProbRow]

/-- C2 (amended): For states whose two remaining needs are both at most 3
the cashout value equals `round(p * 2 * wager * 0.95, 2)` with `p` given by
the 50/50 negative-binomial recurrence; when either remaining need exceeds
3 the code instead prices with the default `p = 0.5` regardless of the
true recurrence value. -/
theorem C2_cashout_recurrence_correspondence :
    (∀ (s o t : ℕ) (w : ℚ), 0 ≤ w → s < t → o < t → t - s ≤ 3 → t - o ≤ 3 →
      calculate_cashout s o t w = round2 (winProb (t - s) (t - o) * 2 * w * (19/20))) ∧
    (∀ (s o t : ℕ) (w : ℚ), 0 ≤ w → s < t → o < t → (3 < t - s ∨ 3 < t - o) →
      calculate_cashout s o t w = round2 ((1/2) * 2 * w * (19/20))) := by
  constructor
  · intro s o t w hw hs ho hns hno
    unfold calculate_cashout
    rw [if_neg (by omega : ¬ s ≥ t), if_neg (by omega : ¬ o ≥ t)]
    have htab : cashout_prob (t - s) (t - o) = winProb (t - s) (t - o) :=
      cashout_prob_eq_winProb _ _ (by omega) (by omega) (by omega) (by omega)
    have hnn : 0 ≤ cashout_prob (t - s) (t - o) * (w * 2) * (19/20) := by
      have := cashout_prob_nonneg (t - s) (t - o)
      positivity
    rw [max_eq_right (round2_nonneg hnn)]
    congr 1
    rw [htab]; ring
  · intro s o t w hw hs ho hbig
    unfold calculate_cashout
    rw [if_neg (by omega : ¬ s ≥ t), if_neg (by omega : ¬ o ≥ t)]
    have hdef : cashout_prob (t - s) (t - o) = 1/2 := cashout_prob_default _ _ hbig
    have hnn : 0 ≤ cashout_prob (t - s) (t - o) * (w * 2) * (19/20) := by
      have := cashout_prob_nonneg (t - s) (t - o)
      positivity
    rw [max_eq_right (round2_nonneg hnn)]
    congr 1
    rw [hdef]; ring

/-- C2: Witness for the in-table part at Scenario B (`targetPoints = 3`,
score 2-1, wager 10). -/
theorem C2_witness :
    (0:ℚ) ≤ 10 ∧
    calculate_cashout 2 1 3 10 = round2 (winProb (3 - 2) (3 - 1) * 2 * 10 * (19/20)) :=
  ⟨by norm_num,
   C2_cashout_recurrence_correspondence.1 2 1 3 10 (by norm_num)
     (by omega) (by omega) (by omega) (by omega)⟩

/-- C3: One sweeper cycle over a store holding an expired auto-cashout bot
series and an expired open challenge schedules the bot session id for
removal twice (src/main.py:308 and 325 both append it); the removal loop
then hits `KeyError` on the duplicate, so the open challenge — although
expired and refunded — is never removed from the store and the cycle does
not complete.  This exhibits the code bug against the claimed
exactly-once-removal invariant. -/
theorem C3_sweep_double_schedule :
    (check_expired_challenges 1000 300 c3_store).expired =
      ["v2_bot_dice_7_50", "v2_bot_dice_7_50", "dice_open_9_60"] ∧
    (check_expired_challenges 1000 300 c3_store).completed = false ∧
    (check_expired_challenges 1000 300 c3_store).store =
      [("dice_open_9_60", c3_open_session)] ∧
    (check_expired_challenges 1000 300 c3_store).credits = [(7, 57/4), (9, 5)] ∧
    (check_expired_challenges 1000 300 c3_store).houseDelta = -(17/4) := by
  norm_num +decide [check_expired_challenges, sweepChallenge, c3_store,
    c3_bot_session, c3_open_session, strStartsWith, removeExpired, storeHasKey,
    storeErase, calculate_cashout, cashout_prob, round2, roundHalfEven]

/-- C4: Counterexample.  When a v2 PvP series with both sides escrowed
expires because the challenger stalls, the sweeper refunds the opponent but
performs no house adjustment at all: the house balance change is `0`, not
the `+wager = +10` the claim states. -/
theorem C4_counterexample :
    (check_expired_challenges 1000 300 [("v2_pvp_dice_3_0", c4_stalled_pvp)]).houseDelta = 0 ∧
    (check_expired_challenges 1000 300 [("v2_pvp_dice_3_0", c4_stalled_pvp)]).credits =
      [(4, 10)] ∧
    ((0:ℚ) ≠ 10) := by
  norm_num +decide [check_expired_challenges, sweepChallenge, c4_stalled_pvp,
    strStartsWith, removeExpired, storeHasKey, storeErase]

/-- C4 (amended): When a v2 PvP series with both sides escrowed expires with
the challenger stalling, the opponent is refunded their own wager (their
balance returns to its pre-escrow level) and the session is removed, but
the stalling side's wager is simply kept out of circulation — the house
balance is not adjusted.  Only in the legacy accepted-challenge flow
(`waiting_for_challenger_emoji`) does the stalling challenger forfeit to
the house (`+wager`) with the acceptor refunded. -/
theorem C4_stall_policy_amended :
    (∀ (id : String) (c : Challenge) (now lim t0 : ℤ) (oid : ℕ) (b : ℚ),
      strStartsWith id "v2_bot_" = false → strStartsWith id "v2_pvp_" = true →
      c.emoji_wait = some t0 → c.cur_rolls = 0 → c.p_pts = 0 → c.b_pts = 0 →
      now - t0 > lim → c.waiting_p1 = true → c.p2_deducted = true →
      c.opponent = some oid →
      (check_expired_challenges now lim [(id, c)]).credits = [(oid, c.wager)] ∧
      (check_expired_challenges now lim [(id, c)]).houseDelta = 0 ∧
      (check_expired_challenges now lim [(id, c)]).store = [] ∧
      applyCredits (b - c.wager) oid
        (check_expired_challenges now lim [(id, c)]).credits = b) ∧
    (∀ (id : String) (c : Challenge) (now lim t0 : ℤ) (oid : ℕ),
      strStartsWith id "v2_bot_" = false → strStartsWith id "v2_pvp_" = false →
      c.waiting_for_challenger_emoji = true → c.emoji_wait_started = some t0 →
      c.opponent = some oid → now - t0 > lim →
      (check_expired_challenges now lim [(id, c)]).houseDelta = c.wager ∧
      (check_expired_challenges now lim [(id, c)]).credits = [(oid, c.wager)] ∧
      (check_expired_challenges now lim [(id, c)]).store = []) := by
  constructor
  · intro id c now lim t0 oid b hbot hpvp hwait hc hp hb hlim hw1 hded hopp
    unfold check_expired_challenges
    rw [List.foldl_cons, List.foldl_nil,
        sweepChallenge_pvp_stall now lim t0 id c _ oid hbot hpvp hwait ⟨hc, hp, hb⟩ hlim hw1 hded hopp]
    simp [removeExpired_single, applyCredits]
  · intro id c now lim t0 oid hbot hpvp hwce hstart hopp hlim
    unfold check_expired_challenges
    rw [List.foldl_cons, List.foldl_nil,
        sweepChallenge_legacy_challenger_stall now lim t0 id c _ oid hbot hpvp hwce hstart hopp hlim]
    simp [removeExpired_single]

/-- C4: Witness for the amended stall policy, at Scenario D (v2 PvP, wager
10, challenger 3 stalls, opponent 4 with pre-escrow balance 50) and at a
legacy accepted challenge (wager 7, challenger 5 stalls, acceptor 6). -/
theorem C4_witness :
    ((check_expired_challenges 1000 300 [("v2_pvp_dice_3_0", c4_stalled_pvp)]).credits =
        [(4, c4_stalled_pvp.wager)] ∧
      (check_expired_challenges 1000 300 [("v2_pvp_dice_3_0", c4_stalled_pvp)]).houseDelta = 0 ∧
      (check_expired_challenges 1000 300 [("v2_pvp_dice_3_0", c4_stalled_pvp)]).store = [] ∧
      applyCredits (50 - c4_stalled_pvp.wager) 4
        (check_expired_challenges 1000 300 [("v2_pvp_dice_3_0", c4_stalled_pvp)]).credits = 50) ∧
    ((check_expired_challenges 1000 300 [("dice_5_0", c4_legacy_session)]).houseDelta =
        c4_legacy_session.wager ∧
      (check_expired_challenges 1000 300 [("dice_5_0", c4_legacy_session)]).credits =
        [(6, c4_legacy_session.wager)] ∧
      (check_expired_challenges 1000 300 [("dice_5_0", c4_legacy_session)]).store = []) :=
  ⟨C4_stall_policy_amended.1 "v2_pvp_dice_3_0" c4_stalled_pvp 1000 300 0 4 50
      (by decide) (by decide) rfl rfl rfl rfl (by norm_num) rfl rfl rfl,
   C4_stall_policy_amended.2 "dice_5_0" c4_legacy_session 1000 300 0 6
      (by decide) (by decide) rfl rfl rfl (by norm_num)⟩

/-- C5: The only cancel path for a pending challenge (the `decline_` branch)
rejects a non-creator with no state change, and on a creator's cancel it
deletes the session but issues no refund: after creating an open dice
challenge with wager 5 (balance 100 → 95) and cancelling it, the creator's
balance stays 95, contradicting the claimed full refund of escrow. -/
theorem C5_cancel_keeps_escrow :
    create_open_dice_challenge 9 100 5 0 [] =
      some (95, "dice_open_9_0", [("dice_open_9_0", c5_open_session)]) ∧
    decline_branch [("dice_open_9_0", c5_open_session)] "dice_open_9_0" 8 =
      ([("dice_open_9_0", c5_open_session)], [], false) ∧
    decline_branch [("dice_open_9_0", c5_open_session)] "dice_open_9_0" 9 =
      ([], [], true) ∧
    applyCredits (100 - 5) 9
      (decline_branch [("dice_open_9_0", c5_open_session)] "dice_open_9_0" 9).2.1 = 95 ∧
    (95 : ℚ) ≠ 100 := by
  norm_num +decide [create_open_dice_challenge, create_open_dice_id,
    c5_open_session, decline_branch, storeErase, applyCredits, List.lookup]

/-- C6: Counterexample.  A cashout request on a bot series that is in the
middle of a round (the player has sent only 1 of the 2 rolls of the current
round) does not fail: the handler checks only existence and ownership, so
the request succeeds, credits the mid-round cashout value and removes the
session — contradicting the claimed `InvalidStateForOperation` rejection
with no state change. -/
theorem C6_counterexample :
    c6_midround_bot.cur_rolls < c6_midround_bot.rolls ∧
    (v2_cashout_branch [("v2_bot_dice_7_0", c6_midround_bot)] "v2_bot_dice_7_0" 7).success
      = true ∧
    (v2_cashout_branch [("v2_bot_dice_7_0", c6_midround_bot)] "v2_bot_dice_7_0" 7).store
      = [] ∧
    (v2_cashout_branch [("v2_bot_dice_7_0", c6_midround_bot)] "v2_bot_dice_7_0" 7).credits
      = [(7, 653/50)] := by
  norm_num +decide [v2_cashout_branch, c6_midround_bot, List.lookup, storeErase,
    calculate_cashout, cashout_prob, round2, roundHalfEven]

/-- C6 (amended): The `v2_cashout_` handler succeeds exactly when the session
exists and its `player` field equals the requester (the ownership test also
confines it to bot sessions, the only ones carrying `player`); there is no
between-rounds check.  On success it credits `calculate_cashout` at the
current score, adjusts the house by `-(amount - wager)` and removes the
session; otherwise it changes nothing. -/
theorem C6_cashout_guard_amended (store : Store) (cid : String) (uid : ℕ) :
    (∀ c, List.lookup cid store = some c → c.player = some uid →
      v2_cashout_branch store cid uid =
        ⟨storeErase store cid,
         [(uid, calculate_cashout c.p_pts c.b_pts c.pts c.wager)],
         -(calculate_cashout c.p_pts c.b_pts c.pts c.wager - c.wager), true⟩) ∧
    (List.lookup cid store = none →
      v2_cashout_branch store cid uid = ⟨store, [], 0, false⟩) ∧
    (∀ c, List.lookup cid store = some c → c.player ≠ some uid →
      v2_cashout_branch store cid uid = ⟨store, [], 0, false⟩) := by
  refine ⟨?_, ?_, ?_⟩
  · intro c hc hp
    unfold v2_cashout_branch
    rw [hc]
    simp [hp]
  · intro hc
    unfold v2_cashout_branch
    rw [hc]
  · intro c hc hp
    unfold v2_cashout_branch
    rw [hc]
    simp [hp]

/-- C6: Witness for the amended cashout guard, at the mid-round bot series
owned by player 7. -/
theorem C6_witness :
    v2_cashout_branch [("v2_bot_dice_7_0", c6_midround_bot)] "v2_bot_dice_7_0" 7 =
      ⟨storeErase [("v2_bot_dice_7_0", c6_midround_bot)] "v2_bot_dice_7_0",
       [(7, calculate_cashout c6_midround_bot.p_pts c6_midround_bot.b_pts
             c6_midround_bot.pts c6_midround_bot.wager)],
       -(calculate_cashout c6_midround_bot.p_pts c6_midround_bot.b_pts
             c6_midround_bot.pts c6_midround_bot.wager - c6_midround_bot.wager), true⟩ :=
  (C6_cashout_guard_amended [("v2_bot_dice_7_0", c6_midround_bot)] "v2_bot_dice_7_0" 7).1
    c6_midround_bot rfl rfl

/-- C7: Counterexample.  The id minted for an open dice challenge by user 1
at epoch 0 is `"dice_open_1_0"`, which does not match the claimed contract
`"<kind>_<creatorId>_<creationEpochSeconds>"` with
`kind ∈ {open, pvp, bot}`. -/
theorem C7_counterexample :
    create_open_dice_id 1 0 = "dice_open_1_0" ∧ ¬ claimedIdFormat "dice_open_1_0" := by
  constructor
  · decide
  · rintro ⟨kind, creator, ts, hk, he⟩
    unfold specSessionId at he
    have hd := congrArg String.data he
    simp only [str_data_append] at hd
    rcases hk with rfl | rfl | rfl <;> simp at hd

/-- C7 (amended): Every session-id minting site in the source produces the
shape `"<prefix>_<creatorId>_<creationEpochSeconds>"`, but the prefixes are
`dice_open` (open dice challenges), `<game>_open` (emoji open challenges,
`game ∈ {darts, basketball, soccer, bowling}` at the call sites),
`v2_bot_<game>` and `v2_pvp_<game>` (v2 series), and bare `v2_bot` in the
dead setup-confirm path — never the claimed bare `open`/`pvp`/`bot` kinds. -/
theorem C7_id_format_amended :
    (∀ uid ts : ℕ, create_open_dice_id uid ts = specSessionId "dice_open" uid ts) ∧
    (∀ (g : String) (uid ts : ℕ),
      emoji_open_id g uid ts = specSessionId (g ++ "_open") uid ts) ∧
    (∀ (g : String) (uid ts : ℕ),
      v2_bot_id g uid ts = specSessionId ("v2_bot_" ++ g) uid ts) ∧
    (∀ (g : String) (uid ts : ℕ),
      v2_pvp_id g uid ts = specSessionId ("v2_pvp_" ++ g) uid ts) ∧
    (∀ uid ts : ℕ, setup_confirm_bot_id uid ts = specSessionId "v2_bot" uid ts) := by
  refine ⟨fun _ _ => rfl, ?_, fun _ _ _ => rfl, fun _ _ _ => rfl, fun _ _ => rfl⟩
  intro g uid ts
  unfold emoji_open_id specSessionId
  have h : (g ++ "_open") ++ "_" = g ++ "_open_" := by
    rw [str_append_assoc]
    exact congrArg (g ++ ·) (by decide)
  rw [h]

/-- C8: Counterexample.  With `targetPoints = 4` and wager 10, the state
3-2 has score difference 1 and the state 3-0 has score difference 3, yet
the cashout value at 3-2 (`14.25`, from the lookup table) exceeds the value
at 3-0 (`9.50`, from the out-of-table default probability): the value is
not non-decreasing in the score difference. -/
theorem C8_counterexample :
    ((3:ℤ) - 2 < (3:ℤ) - 0) ∧
    ¬ (calculate_cashout 3 2 4 10 ≤ calculate_cashout 3 0 4 10) := by
  norm_num [calculate_cashout, cashout_prob, round2, roundHalfEven]

/-- C8 (amended): For fixed `targetPoints` and wager the cashout value is
non-decreasing in the strictly increasing score difference, provided both
states lie in the lookup-table region (both remaining needs at most 3 —
in particular for every `targetPoints ≤ 3`); outside that region the
out-of-table default probability breaks monotonicity. -/
theorem C8_monotone_in_table (t s1 o1 s2 o2 : ℕ) (w : ℚ) (hw : 0 ≤ w)
    (hs1 : s1 < t) (ho1 : o1 < t) (hs2 : s2 < t) (ho2 : o2 < t)
    (hn1 : t - s1 ≤ 3) (hm1 : t - o1 ≤ 3) (hn2 : t - s2 ≤ 3) (hm2 : t - o2 ≤ 3)
    (hdiff : (s1 : ℤ) - o1 < (s2 : ℤ) - o2) :
    calculate_cashout s1 o1 t w ≤ calculate_cashout s2 o2 t w := by
  have hp := cashout_prob_mono_in_table (t - s1) (t - o1) (t - s2) (t - o2)
    (by omega) (by omega) (by omega) (by omega) (by omega) (by omega) (by omega) (by omega)
    (by omega)
  unfold calculate_cashout
  rw [if_neg (by omega : ¬ s1 ≥ t), if_neg (by omega : ¬ o1 ≥ t),
      if_neg (by omega : ¬ s2 ≥ t), if_neg (by omega : ¬ o2 ≥ t)]
  refine max_le_max le_rfl (round2_mono ?_)
  have hscale : (0:ℚ) ≤ (w * 2) * (19/20) := by positivity
  calc cashout_prob (t - s1) (t - o1) * (w * 2) * (19/20)
      = cashout_prob (t - s1) (t - o1) * ((w * 2) * (19/20)) := by ring
    _ ≤ cashout_prob (t - s2) (t - o2) * ((w * 2) * (19/20)) :=
        mul_le_mul_of_nonneg_right hp hscale
    _ = cashout_prob (t - s2) (t - o2) * (w * 2) * (19/20) := by ring

/-- C8: Witness for in-table monotonicity at `targetPoints = 3`, wager 10:
state 0-1 (difference -1) against state 1-0 (difference 1). -/
theorem C8_witness :
    calculate_cashout 0 1 3 10 ≤ calculate_cashout 1 0 3 10 :=
  C8_monotone_in_table 3 0 1 1 0 10 (by norm_num)
    (by omega) (by omega) (by omega) (by omega)
    (by omega) (by omega) (by omega) (by omega) (by decide)

/-- C9: Counterexample.  At wager `0.004` (a non-negative decimal, so a
valid input under the claim) with `targetPoints = 3` and score 2-0, the
cashout value rounds up to `0.01`, which exceeds `2 * wager = 0.008`: the
upper bound fails for sub-cent wagers. -/
theorem C9_counterexample :
    (0:ℚ) ≤ 1/250 ∧
    calculate_cashout 2 0 3 (1/250) = 1/100 ∧
    ¬ (calculate_cashout 2 0 3 (1/250) ≤ 2 * (1/250)) := by
  norm_num [calculate_cashout, cashout_prob, round2, roundHalfEven]

/-- C9 (amended): For every wager that is a whole number of cents
(`wager = k/100`, `k : ℕ`) and every score/target, the cashout value
satisfies `0 ≤ cashout ≤ 2 * wager`; the two-decimal rounding can violate
the upper bound only for sub-cent wager amounts. -/
theorem C9_bounds_cent_wagers (s o t k : ℕ) :
    0 ≤ calculate_cashout s o t ((k : ℚ) / 100) ∧
    calculate_cashout s o t ((k : ℚ) / 100) ≤ 2 * ((k : ℚ) / 100) := by
  have hw : (0:ℚ) ≤ (k : ℚ) / 100 := by positivity
  unfold calculate_cashout
  split_ifs with h1 h2
  · constructor
    · linarith
    · linarith [le_of_eq (by ring : ((k:ℚ)/100) * 2 = 2 * ((k:ℚ)/100))]
  · exact ⟨le_rfl, by linarith⟩
  · constructor
    · exact le_max_left 0 _
    · apply max_le (by linarith)
      have hple := cashout_prob_le (t - s) (t - o)
      have hpnn := cashout_prob_nonneg (t - s) (t - o)
      have hval : cashout_prob (t - s) (t - o) * (((k:ℚ)/100) * 2) * (19/20)
          ≤ (133/80) * ((k:ℚ)/100) := by nlinarith
      have hmono := round2_mono hval
      have hkey : round2 ((133/80) * ((k:ℚ)/100)) ≤ 2 * ((k:ℚ)/100) := by
        unfold round2
        have harg : (100:ℚ) * ((133/80) * ((k:ℚ)/100)) = (133 * k : ℚ) / 80 := by
          ring
        rw [harg]
        have hb := roundHalfEven_cents_bound k
        have hbq : (roundHalfEven ((133 * k : ℚ) / 80) : ℚ) ≤ 2 * (k : ℚ) := by
          exact_mod_cast hb
        linarith
      linarith

/-- C10: When the sweeper expires a v2 bot series that is parked at the
between-rounds cashout prompt (`waiting_for_cashout`), it does not forfeit
the stake: it credits the player the current `calculate_cashout` value,
adjusts the house balance by `-(cashout - wager)`, and the session is
removed from the store. -/
theorem C10_sweeper_auto_cashout (id : String) (c : Challenge)
    (now lim t0 : ℤ) (pid : ℕ)
    (hid : strStartsWith id "v2_bot_" = true)
    (hwait : c.emoji_wait = some t0)
    (hcash : c.waiting_for_cashout = true)
    (hpid : c.player = some pid)
    (h900 : now - t0 > 900) (hlim : now - t0 > lim) :
    (check_expired_challenges now lim [(id, c)]).credits =
      [(pid, calculate_cashout c.p_pts c.b_pts c.pts c.wager)] ∧
    (check_expired_challenges now lim [(id, c)]).houseDelta =
      -(calculate_cashout c.p_pts c.b_pts c.pts c.wager - c.wager) ∧
    (check_expired_challenges now lim [(id, c)]).store = [] := by
  unfold check_expired_challenges
  rw [List.foldl_cons, List.foldl_nil,
      sweepChallenge_auto_cashout now lim t0 id c _ pid hid hwait hcash hpid h900 hlim]
  simp [removeExpired_dup_single id c]

/-- C10: Witness at a concrete prompt-parked bot series (score 1-2 of 3,
wager 20, player 11, expired at time 1001 against limit 300). -/
theorem C10_witness :
    (check_expired_challenges 1001 300 [("v2_bot_darts_11_200", c10_prompt_bot)]).credits =
      [(11, calculate_cashout c10_prompt_bot.p_pts c10_prompt_bot.b_pts
          c10_prompt_bot.pts c10_prompt_bot.wager)] ∧
    (check_expired_challenges 1001 300 [("v2_bot_darts_11_200", c10_prompt_bot)]).houseDelta =
      -(calculate_cashout c10_prompt_bot.p_pts c10_prompt_bot.b_pts
          c10_prompt_bot.pts c10_prompt_bot.wager - c10_prompt_bot.wager) ∧
    (check_expired_challenges 1001 300 [("v2_bot_darts_11_200", c10_prompt_bot)]).store = [] :=
  C10_sweeper_auto_cashout "v2_bot_darts_11_200" c10_prompt_bot 1001 300 100 11
    (by decide) rfl rfl rfl (by norm_num) (by norm_num)
